import Mathlib

/-!
Shallow embedding of the failover orchestration engine of the
nginx-proxy-manager switcher (npm-restpage): the health evaluator
(`checkHealth`, `parseTimeToMs` from `healthChecker.js`), the failover
orchestrator (`checkAndUpdateService`, `needsConfigurationUpdate`,
`updateServiceConfiguration` from `serviceManager.js`), the config file
synchronizer (`updateProxyConfig`, `replaceUpstreamConfig` from
`nginxConfigUpdater.js`), the record store adapter (`updateProxyHost` from
`databaseManager.js`) and the snapshot archive (`snapshotManager.js`).

Machine integers are modelled as `Nat` (the JavaScript values involved are
small non-negative integers well below 2^53, where JS number arithmetic is
exact).  File systems are modelled as association lists from path to
content; external effects (database queries, process execution, HTTP
probes) are supplied as explicit outcome parameters.
-/

/-- JavaScript strict inequality `a !== b` for a pair of nullable fields,
as used in `needsConfigurationUpdate`.  The left operand is a
`ServiceRuntimeState` field that is either `null` (initial value) or a
value; the right operand is a target-config field that is either
`undefined` (key absent) or a value.  Since `null !== undefined` in JS,
every case with a missing side — including both sides missing — compares
unequal; only two present equal values compare equal. -/
def jsStrictNeq {α : Type} [DecidableEq α] : Option α → Option α → Bool
  | some a, some b => decide (a ≠ b)
  | _, _ => true

/-- JavaScript `||` on an optional value: `x || y` yields `y` when `x` is
`null`/`undefined` (the objects involved are always truthy when present). -/
def jsOr {α : Type} : Option α → Option α → Option α
  | some a, _ => some a
  | none, y => y

/-- Decimal value of a digit list, `parseInt(s, 10)` on an all-digit string. -/
def digitsToNat (ds : List Char) : Nat :=
  ds.foldl (fun n c => n * 10 + (c.toNat - 48)) 0

/-- Unit multiplier table of `parseTimeToMs` (`healthChecker.js`):
`{ s: 1000, m: 60*1000, h: 60*60*1000, d: 24*60*60*1000 }`. -/
def unitMultiplier : Char → Option Nat
  | 's' => some 1000
  | 'm' => some 60000
  | 'h' => some 3600000
  | 'd' => some 86400000
  | _ => none

/-- Model of `parseTimeToMs(timeStr)` from `healthChecker.js`: match the anchored
regular expression `^(\d+)([smhd])$` — one or more decimal digits followed
by exactly one unit character — and return `value * multiplier`; any other
string throws `Invalid time format: <timeStr>`. -/
def parseTimeToMs (timeStr : String) : Except String Nat :=
  match timeStr.data.reverse with
  | u :: revDigits =>
    let ds := revDigits.reverse
    match unitMultiplier u with
    | some mult =>
      if ds ≠ [] ∧ ds.all Char.isDigit then
        Except.ok (digitsToNat ds * mult)
      else Except.error ("Invalid time format: " ++ timeStr)
    | none => Except.error ("Invalid time format: " ++ timeStr)
  | [] => Except.error ("Invalid time format: " ++ timeStr)

/-! ## Health evaluator (`checkHealth`, healthChecker.js) -/

/-- Outcome of one HTTP GET attempt as seen by `checkHealth`: the axios
call either resolves with a status code and a response time, or throws an
error whose classified message (`Connection refused`, `Connection
timeout`, `Host not found`, `HTTP <status>`, …) is produced by the catch
block. -/
inductive AttemptOutcome : Type
  | resolved (status : Nat) (rt : Nat)
  | threw (msg : String) (rt : Nat)
deriving DecidableEq

/-- The `HealthCheckResult` record returned by `checkHealth`. -/
structure HealthCheckResult : Type where
  success : Bool
  responseTime : Nat
  error : Option String
  attempts : Nat
deriving DecidableEq

/-- The `for (let attempt = 1; attempt <= maxRetries; attempt++)` loop of
`checkHealth`.  `k` counts the loop iterations still allowed
(`maxRetries - attempt + 1` at every call), making the recursion
structural.  The second component of the result accumulates the total
milliseconds spent in `await this.sleep(1000)` retry delays.  When the
loop exhausts without returning (only reachable via the resolved-non-2xx
branch, which does not return on the last attempt), the code falls
through to the `All retries exhausted` return with `responseTime: 0` and
`attempts: maxRetries`. -/
def checkHealthLoop (outcomes : Nat → AttemptOutcome) (maxRetries : Nat) :
    Nat → Nat → Option String → Nat → HealthCheckResult × Nat
  | 0, _, lastError, delay =>
    (⟨false, 0, lastError, maxRetries⟩, delay)
  | k + 1, attempt, _lastError, delay =>
    match outcomes attempt with
    | AttemptOutcome.resolved status rt =>
      if 200 ≤ status ∧ status < 300 then
        (⟨true, rt, none, attempt⟩, delay)
      else
        -- dead in practice: axios `validateStatus` rejects non-2xx, so the
        -- response object only reaches this branch with a 2xx status
        let le := some ("HTTP " ++ toString status)
        if attempt < maxRetries then
          checkHealthLoop outcomes maxRetries k (attempt + 1) le (delay + 1000)
        else
          checkHealthLoop outcomes maxRetries k (attempt + 1) le delay
    | AttemptOutcome.threw msg rt =>
      if attempt < maxRetries then
        checkHealthLoop outcomes maxRetries k (attempt + 1) (some msg) (delay + 1000)
      else
        (⟨false, rt, some msg, attempt⟩, delay)

/-- Model of `checkHealth(checkUrl, serviceName, retries = 3)` from
`healthChecker.js`.  `maxRetries = Math.max(1, retries)`; there is no
upper clamp.  Returns the result together with the total retry-delay
milliseconds incurred. -/
def checkHealth (outcomes : Nat → AttemptOutcome) (retries : Nat := 3) :
    HealthCheckResult × Nat :=
  let maxRetries := max 1 retries
  checkHealthLoop outcomes maxRetries maxRetries 1 none 0

/-! ## Config file synchronizer (`nginxConfigUpdater.js`)

`replaceUpstreamConfig` applies four global regex replacements in order.
Each is modelled as a left-to-right scan that, at every position, tries to
match the pattern and on success emits the replacement and resumes after
the matched text — the semantics of `String.prototype.replace` with a `g`
flag.  The patterns interpolate the old host (dots escaped) and old port
as literals; the surrounding whitespace classes are greedy, and since the
character required after each `\s*`/`\s+` is never itself whitespace, a
greedy non-backtracking matcher is exact. -/

/-- Literal prefix match: consume exactly `pat` and return the rest. -/
def litP : List Char → List Char → Option (List Char)
  | [], l => some l
  | p :: ps, c :: cs => if c = p then litP ps cs else none
  | _ :: _, [] => none

/-- JavaScript regex `\s` (the whitespace characters relevant here). -/
def isJsWs (c : Char) : Bool :=
  c = ' ' || c = '\t' || c = '\n' || c = '\r' || c = '\x0b' || c = '\x0c'

/-- Greedy `\s*`: matched whitespace run and the rest. -/
def wsStar (l : List Char) : List Char × List Char :=
  (l.takeWhile isJsWs, l.dropWhile isJsWs)

/-- Greedy `\s+`: at least one whitespace character. -/
def wsPlus : List Char → Option (List Char × List Char)
  | [] => none
  | c :: cs =>
    if isJsWs c then some (c :: cs.takeWhile isJsWs, cs.dropWhile isJsWs)
    else none

/-- Matcher for `(set\s+\$server\s*")<oldHost>("\s*;)` at the head of the
input, producing the replacement `$1<newHost>$2` and the rest. -/
def tryServerSet (oldHost newHost : List Char) (l : List Char) :
    Option (List Char × List Char) := do
  let r1 ← litP "set".data l
  let (w1, r2) ← wsPlus r1
  let r3 ← litP "$server".data r2
  let (w2, r4) := wsStar r3
  let r5 ← litP ['"'] r4
  let r6 ← litP oldHost r5
  let r7 ← litP ['"'] r6
  let (w3, r8) := wsStar r7
  let r9 ← litP [';'] r8
  some ("set".data ++ w1 ++ "$server".data ++ w2 ++ ['"'] ++ newHost
        ++ ['"'] ++ w3 ++ [';'], r9)

/-- Matcher for `(set\s+\$port\s*)<oldPort>(\s*;)` at the head of the
input, producing `$1<newPort>$2` and the rest. -/
def tryPortSet (oldPort newPort : List Char) (l : List Char) :
    Option (List Char × List Char) := do
  let r1 ← litP "set".data l
  let (w1, r2) ← wsPlus r1
  let r3 ← litP "$port".data r2
  let (w2, r4) := wsStar r3
  let r5 ← litP oldPort r4
  let (w3, r6) := wsStar r5
  let r7 ← litP [';'] r6
  some ("set".data ++ w1 ++ "$port".data ++ w2 ++ newPort ++ w3 ++ [';'], r7)

/-- Matcher for `server\s+<oldHost>:<oldPort>;` (the third pattern; with
`withSemi := false` the fourth pattern, without the trailing `;`),
producing the literal replacement `server <newHost>:<newPort>[;]`. -/
def tryUpstream (withSemi : Bool) (oldHost oldPort newHost newPort : List Char)
    (l : List Char) : Option (List Char × List Char) := do
  let r1 ← litP "server".data l
  let (_, r2) ← wsPlus r1
  let r3 ← litP oldHost r2
  let r4 ← litP [':'] r3
  let r5 ← litP oldPort r4
  if withSemi then
    let r6 ← litP [';'] r5
    some ("server ".data ++ newHost ++ [':'] ++ newPort ++ [';'], r6)
  else
    some ("server ".data ++ newHost ++ [':'] ++ newPort, r5)

/-- Fuel-driven core of the global-replace scan: at each position try the
matcher; on a match that consumes at least one character, emit the
replacement and resume after it, otherwise copy one character and move
on.  `fuel ≥ length` always suffices. -/
def replaceScanF (tryM : List Char → Option (List Char × List Char)) :
    Nat → List Char → List Char
  | 0, l => l
  | _ + 1, [] => []
  | fuel + 1, c :: cs =>
    match tryM (c :: cs) with
    | some (out, rest) =>
      if rest.length < (c :: cs).length then out ++ replaceScanF tryM fuel rest
      else c :: replaceScanF tryM fuel cs
    | none => c :: replaceScanF tryM fuel cs

/-- Global replace: `content.replace(pattern, replacement)` with the `g`
flag, for the matcher `try`. -/
def replaceScan (tryM : List Char → Option (List Char × List Char))
    (l : List Char) : List Char :=
  replaceScanF tryM l.length l

/-- Model of `replaceUpstreamConfig(content, oldHost, newHost, oldPort, newPort)`
from `nginxConfigUpdater.js`: the four global replacements applied in
source order (NPM `set $server "…";` form, NPM `set $port …;` form,
`server host:port;` upstream form, then the same without the trailing
semicolon). -/
def replaceUpstreamConfig (content : String) (oldHost newHost : String)
    (oldPort newPort : Nat) : String :=
  let oh := oldHost.data
  let nh := newHost.data
  let op := (toString oldPort).data
  let np := (toString newPort).data
  let s1 := replaceScan (tryServerSet oh nh) content.data
  let s2 := replaceScan (tryPortSet op np) s1
  let s3 := replaceScan (tryUpstream true oh op nh np) s2
  let s4 := replaceScan (tryUpstream false oh op nh np) s3
  String.mk s4

/-! ## File system model -/

/-- A directory/file-system snapshot: association list from path to
content, newest write first. -/
abbrev Fs (α : Type) : Type := List (String × α)

/-- Look up a path (first, i.e. most recent, entry wins). -/
def fsLookup {α : Type} : Fs α → String → Option α
  | [], _ => none
  | e :: rest, p => if e.1 = p then some e.2 else fsLookup rest p

/-- Write a path (`fs.writeFileSync`): create or overwrite. -/
def fsWrite {α : Type} (fs : Fs α) (p : String) (c : α) : Fs α :=
  (p, c) :: fs

/-- Delete a path (`fs.unlink`); all its entries are removed. -/
def fsRemove {α : Type} (fs : Fs α) (p : String) : Fs α :=
  fs.filter (fun e => decide (e.1 ≠ p))

/-- Whether a path exists (`fs.existsSync`). -/
def fsExists {α : Type} (fs : Fs α) (p : String) : Bool :=
  (fsLookup fs p).isSome

/-- Config file path convention of `updateProxyConfig`:
`path.join(this.nginxConfDir, `${proxyId}.conf`)`. -/
def configPathOf (confDir : String) (proxyId : Nat) : String :=
  confDir ++ "/" ++ toString proxyId ++ ".conf"

/-- Backup path convention: `${configPath}.backup.${Date.now()}`. -/
def backupPathOf (confDir : String) (proxyId : Nat) (now : Nat) : String :=
  configPathOf confDir proxyId ++ ".backup." ++ toString now

/-- Model of `updateProxyConfig(proxyId, oldHost, newHost, oldPort, newPort)` from
`nginxConfigUpdater.js`.  If the config file does not exist, log and
return `false` without touching anything.  Otherwise write a timestamped
backup containing the pre-patch content, write the patched content over
the config file, and return `true`.  The `oldScheme`/`newScheme`
arguments passed by `updateServiceConfiguration` have no corresponding
parameters and are ignored; no scheme text is patched. -/
def updateProxyConfig (confDir : String) (fs : Fs String) (now : Nat)
    (proxyId : Nat) (oldHost newHost : String) (oldPort newPort : Nat) :
    Bool × Fs String :=
  let configPath := configPathOf confDir proxyId
  match fsLookup fs configPath with
  | none => (false, fs)
  | some configContent =>
    let fs1 := fsWrite fs (backupPathOf confDir proxyId now) configContent
    let updatedContent := replaceUpstreamConfig configContent oldHost newHost oldPort newPort
    let fs2 := fsWrite fs1 configPath updatedContent
    (true, fs2)

/-! ## Record store adapter (`databaseManager.js`) -/

/-- A `proxy_host` row as selected by `findProxyHostByDomain`. -/
structure ProxyHost : Type where
  id : Nat
  domain_names : String
  forward_host : String
  forward_port : Nat
  forward_scheme : String
  enabled : Bool
deriving DecidableEq

/-- The fields of the `DatabaseManager` instance: `config`, `logger`,
`db`.  The `db.run` callback in `updateProxyHost` is an arrow function,
so `this` inside it is this instance — which has no `changes` property —
rather than the sqlite3 statement object that carries the affected-row
count.  `this.changes` therefore evaluates to `undefined`. -/
def databaseManagerChanges : Option Nat := none

/-- Model of `updateProxyHost(id, newHost, newPort, newScheme = null)` from
`databaseManager.js`, given the outcome of the underlying `db.run`
(`Except.error` = query/connection error, `Except.ok changes` = statement
completed affecting `changes` rows).  On error the promise rejects;
otherwise the `else if (this.changes === 0)` guard is evaluated with the
arrow-bound `this` described at `databaseManagerChanges`, so
`undefined === 0` is false and the zero-rows branch never runs: the call
resolves `true` whenever the statement ran without error.  The id, host,
port and scheme arguments only select the SQL text and do not affect the
resolved value. -/
def updateProxyHost (_id : Nat) (_newHost : String) (_newPort : Nat)
    (_newScheme : Option String) (runOutcome : Except String Nat) :
    Except String Bool :=
  match runOutcome with
  | Except.error e => Except.error e
  | Except.ok _changes =>
    if databaseManagerChanges = some 0 then Except.ok false
    else Except.ok true

/-- What `updateProxyHost`'s own JSDoc, its warn-log branch and the spec
describe: resolve `false` exactly when the statement affected zero rows
(the sqlite3 statement's `changes` count, which a `function`-bound
callback would have read from `this.changes`). -/
def updateProxyHostDocumented (runOutcome : Except String Nat) :
    Except String Bool :=
  match runOutcome with
  | Except.error e => Except.error e
  | Except.ok changes => if changes = 0 then Except.ok false else Except.ok true

/-! ## Snapshot archive (`snapshotManager.js`) -/

/-- Per-service entry of a snapshot artifact (`{host, port, scheme,
domain}`). -/
structure SnapService : Type where
  host : String
  port : Nat
  scheme : String
  domain : String
deriving DecidableEq

/-- Parsed content of a `snapshot-<n>.json` artifact.  JSON serialization
(`JSON.stringify` on write, `JSON.parse` on read) is a faithful
round-trip for these records, so files store the structured value. -/
structure SnapshotData : Type where
  id : Nat
  timestamp : String
  description : String
  services : List (String × SnapService)
deriving DecidableEq

/-- Entry of the `listSnapshots()` result. -/
structure SnapshotInfo : Type where
  id : Nat
  timestamp : String
  description : String
  servicesCount : Nat
deriving DecidableEq

/-- Filter `file.startsWith('snapshot-') && file.endsWith('.json')`. -/
def isSnapshotFile (f : String) : Bool :=
  "snapshot-".data.isPrefixOf f.data && ".json".data.isSuffixOf f.data

/-- Match `/snapshot-(\d+)\.json/` at the head of the input: the literal
`snapshot-`, one or more digits (greedy; backtracking cannot help since a
shorter digit run ends on a digit, not on `.`), then the literal `.json`.
Returns `parseInt` of the digit group. -/
def trySnapAt (l : List Char) : Option Nat := do
  let r1 ← litP "snapshot-".data l
  let ds := r1.takeWhile Char.isDigit
  if ds.isEmpty then none
  else
    let _ ← litP ".json".data (r1.dropWhile Char.isDigit)
    some (digitsToNat ds)

/-- Leftmost unanchored search for `/snapshot-(\d+)\.json/`
(`file.match(...)`), returning the captured number, or `none` when the
regex does not match anywhere. -/
def findSnapNum : List Char → Option Nat
  | [] => none
  | c :: cs =>
    match trySnapAt (c :: cs) with
    | some n => some n
    | none => findSnapNum cs

/-- Filename convention `snapshot-<n>.json`. -/
def snapFileName (n : Nat) : String :=
  "snapshot-" ++ toString n ++ ".json"

/-- Model of `getLatestSnapshotNumber()` from `snapshotManager.js`: scan the
directory listing for `snapshot-*.json` files, extract each number via
the regex (`0` when the regex finds no number), and return their maximum,
or `0` when no snapshot files exist.  (The `isNaN` filter never drops an
entry: every extracted value is a number.) -/
def getLatestSnapshotNumber (files : List String) : Nat :=
  let snapshotFiles := files.filter isSnapshotFile
  if snapshotFiles.isEmpty then 0
  else
    let numbers := snapshotFiles.map (fun f => (findSnapNum f.data).getD 0)
    numbers.foldl max 0

/-- Model of `createSnapshot(services, description)` from `snapshotManager.js`:
the new id is `getLatestSnapshotNumber() + 1`; the artifact records id,
timestamp, description and the per-service `{host, port, scheme, domain}`
map, and is written to `snapshot-<id>.json`.  Returns the id and the
directory after the write. -/
def createSnapshot (dir : Fs SnapshotData) (services : List (String × SnapService))
    (description : String) (timestamp : String) : Nat × Fs SnapshotData :=
  let latestNumber := getLatestSnapshotNumber (dir.map (·.1))
  let snapshotNumber := latestNumber + 1
  let snapshot : SnapshotData :=
    { id := snapshotNumber
      timestamp := timestamp
      description := description
      services := services.map (fun e => (e.1, ⟨e.2.host, e.2.port, e.2.scheme, e.2.domain⟩)) }
  (snapshotNumber, fsWrite dir (snapFileName snapshotNumber) snapshot)

/-- Ascending insertion into a list sorted by `id`. -/
def insertById (x : SnapshotInfo) : List SnapshotInfo → List SnapshotInfo
  | [] => [x]
  | y :: ys => if x.id ≤ y.id then x :: y :: ys else y :: insertById x ys

/-- Sorting step `snapshots.sort((a, b) => a.id - b.id)`: ascending by id. -/
def sortById : List SnapshotInfo → List SnapshotInfo
  | [] => []
  | x :: xs => insertById x (sortById xs)

/-- Model of `listSnapshots()` from `snapshotManager.js`: read every
`snapshot-*.json` file, project `{id, timestamp, description,
servicesCount}`, and sort ascending by id. -/
def listSnapshots (dir : Fs SnapshotData) : List SnapshotInfo :=
  let snapshotFiles := dir.filter (fun e => isSnapshotFile e.1)
  let snapshots := snapshotFiles.map (fun e =>
    ({ id := e.2.id
       timestamp := e.2.timestamp
       description := e.2.description
       servicesCount := e.2.services.length } : SnapshotInfo))
  sortById snapshots

/-- Model of `deleteSnapshot(snapshotNumber)`: `fs.unlink` succeeds (`true`) when
the file exists and removes it; on a missing file it throws, caught into
a logged `false`. -/
def deleteSnapshot (dir : Fs SnapshotData) (snapshotNumber : Nat) :
    Bool × Fs SnapshotData :=
  let f := snapFileName snapshotNumber
  if fsExists dir f then (true, fsRemove dir f) else (false, dir)

/-! ## Failover orchestrator (`serviceManager.js`) -/

/-- A `{host, port, scheme?}` upstream target: the shape of
`originalConfig` (captured from the ProxyRecord, scheme always present),
of `config.if_success` / `config.if_failed` (scheme optional), and of the
`targetConfig` flowing through `checkAndUpdateService`. -/
structure TargetConfig : Type where
  host : String
  port : Nat
  scheme : Option String
deriving DecidableEq

/-- A `ServiceConfig` entry of the YAML configuration, as validated by
`configLoader.js` (`domain`, `check`, `interval`, `error_delay`,
`if_failed` required; `retries` and `if_success` optional). -/
structure ServiceConfig : Type where
  domain : String
  check : String
  interval : String
  error_delay : String
  retries : Option Nat
  if_success : Option TargetConfig
  if_failed : TargetConfig
deriving DecidableEq

/-- The per-service `serviceState` object created by
`initializeServiceStates`: the `ServiceRuntimeState` of the spec.
`currentHost`/`currentPort`/`currentScheme` (the applied target) start as
`null` (`none`). -/
structure ServiceState : Type where
  config : ServiceConfig
  originalConfig : Option TargetConfig
  isHealthy : Bool
  lastCheck : Option Nat
  consecutiveFailures : Nat
  currentHost : Option String
  currentPort : Option Nat
  currentScheme : Option String
deriving DecidableEq

/-- The applied-target triple of a `ServiceState`. -/
def appliedTarget (st : ServiceState) : Option String × Option Nat × Option String :=
  (st.currentHost, st.currentPort, st.currentScheme)

/-- External outcomes one monitoring cycle of a service observes: the
nginx config directory contents, the clock, the per-attempt probe
outcomes, the `findProxyHostByDomain` result, the `db.run` outcome of the
record update (affected-row count or error), and the exit status of the
reload command. -/
structure CycleEnv : Type where
  confDir : String
  fs : Fs String
  now : Nat
  attempts : Nat → AttemptOutcome
  findOutcome : Except String (Option ProxyHost)
  dbRunOutcome : Except String Nat
  reloadOk : Bool

/-- Result of one cycle: the service state and config directory
afterwards, plus which synchronization steps ran and how they fared. -/
structure CycleResult : Type where
  state : ServiceState
  fs : Fs String
  patchAttempted : Bool
  patchOk : Bool
  dbUpdateAttempted : Bool
  dbUpdateOk : Bool
  reloadAttempted : Bool
  reloadOk : Bool
deriving DecidableEq

/-- A cycle result in which no synchronization step ran and the config
directory is untouched. -/
def noSyncResult (env : CycleEnv) (st : ServiceState) : CycleResult :=
  ⟨st, env.fs, false, false, false, false, false, false⟩

/-- Model of `needsConfigurationUpdate(serviceState, targetConfig)` from
`serviceManager.js`: JS strict-inequality comparison of
`currentHost !== targetConfig.host || currentPort !== targetConfig.port
|| currentScheme !== targetConfig.scheme`.  `currentScheme` is `null`
before the first update while an absent `targetConfig.scheme` is
`undefined`, and `null !== undefined`, so a missing scheme on either
side always counts as a difference. -/
def needsConfigurationUpdate (st : ServiceState) (t : TargetConfig) : Bool :=
  jsStrictNeq st.currentHost (some t.host)
    || jsStrictNeq st.currentPort (some t.port)
    || jsStrictNeq st.currentScheme t.scheme

/-- Target selection of `checkAndUpdateService` (lines 209–224): on a
successful probe, `targetConfig = serviceState.originalConfig ||
config.if_success` — the original wins whenever present, `if_success` is
only the fallback — and `none` means log-and-skip; on a failed probe,
`targetConfig = config.if_failed`. -/
def selectTargetConfig (st : ServiceState) (success : Bool) : Option TargetConfig :=
  if success then jsOr st.originalConfig st.config.if_success
  else some st.config.if_failed

/-- Model of `updateServiceConfiguration(serviceName, serviceState, targetConfig)`
from `serviceManager.js`, with its three-step protocol:
1. `findProxyHostByDomain`; `null` → log and return (a rejection is
   caught by the surrounding try/catch with the same effect);
2. compute old values (`serviceState.currentX || proxyHost.forward_x`;
   the applied values are `null` only before the first update, and the
   stored strings/ports are non-empty/non-zero, so `||` is `getD`) and
   the new scheme (`targetConfig.scheme || oldScheme`), then
   `updateProxyConfig`; `false` → log and return;
3. `updateProxyHost`; resolved `false` → log and return, rejection →
   caught by the try/catch, in both cases without touching the state;
then set the applied target on the state and finally `reloadNginx`,
whose failure is only logged. -/
def updateServiceConfiguration (env : CycleEnv) (st : ServiceState)
    (t : TargetConfig) : CycleResult :=
  match env.findOutcome with
  | Except.error _ => noSyncResult env st
  | Except.ok none => noSyncResult env st
  | Except.ok (some proxyHost) =>
    let oldHost := st.currentHost.getD proxyHost.forward_host
    let oldPort := st.currentPort.getD proxyHost.forward_port
    let oldScheme := st.currentScheme.getD proxyHost.forward_scheme
    let newHost := t.host
    let newPort := t.port
    let newScheme := t.scheme.getD oldScheme
    let patched := updateProxyConfig env.confDir env.fs env.now proxyHost.id
      oldHost newHost oldPort newPort
    if patched.1 = false then
      ⟨st, patched.2, true, false, false, false, false, false⟩
    else
      match updateProxyHost proxyHost.id newHost newPort (some newScheme)
        env.dbRunOutcome with
      | Except.error _ => ⟨st, patched.2, true, true, true, false, false, false⟩
      | Except.ok false => ⟨st, patched.2, true, true, true, false, false, false⟩
      | Except.ok true =>
        let st' := { st with
          currentHost := some newHost
          currentPort := some newPort
          currentScheme := some newScheme }
        ⟨st', patched.2, true, true, true, true, true, env.reloadOk⟩

/-- The health-check call of `checkAndUpdateService`: the retries
argument is `config.retries || 3` in the variant that passes it (`0` is
falsy, so it also yields 3); the other call site omits it, giving the
same default 3. -/
def healthResultOf (env : CycleEnv) (st : ServiceState) : HealthCheckResult :=
  let retries := match st.config.retries with
    | some r => if r = 0 then 3 else r
    | none => 3
  (checkHealth env.attempts retries).1

/-- The service state right after the probe bookkeeping of
`checkAndUpdateService` (lines 199–207): `isHealthy`, `lastCheck` and the
consecutive-failure counter updated, applied target untouched. -/
def postProbeState (env : CycleEnv) (st : ServiceState) : ServiceState :=
  let healthResult := healthResultOf env st
  { st with
    isHealthy := healthResult.success
    lastCheck := some env.now
    consecutiveFailures :=
      if healthResult.success then 0 else st.consecutiveFailures + 1 }

/-- Model of `checkAndUpdateService(serviceName, serviceState)` from
`serviceManager.js`: run the health check, update the probe bookkeeping,
select the target (`none` → log and skip), and when
`needsConfigurationUpdate` says so, run the update protocol. -/
def checkAndUpdateService (env : CycleEnv) (st : ServiceState) : CycleResult :=
  let healthResult := healthResultOf env st
  let st1 := postProbeState env st
  match selectTargetConfig st1 healthResult.success with
  | none => noSyncResult env st1
  | some targetConfig =>
    if needsConfigurationUpdate st1 targetConfig then
      updateServiceConfiguration env st1 targetConfig
    else noSyncResult env st1

/-- Model of `scheduleNextCheck(serviceName, serviceState)` from
`serviceManager.js`: the delay armed for the next cycle is
`parseTimeToMs(config.interval)` when the service is healthy, else
`parseTimeToMs(config.error_delay)`; a parse failure propagates out of
the scheduling step, so no timer is armed for that service. -/
def scheduleNextCheck (st : ServiceState) : Except String Nat :=
  if st.isHealthy then parseTimeToMs st.config.interval
  else parseTimeToMs st.config.error_delay

/-! ## Canonical idiom occurrences and interleavings

For reasoning about the global replacements: a config text is viewed as
fillers interleaved with occurrences of one idiom, and a scan replaces
every occurrence provided the matcher never fires inside a filler. -/

/-- The NPM variable-assignment idiom `set $server "<host>";`. -/
def srvSetL (h : List Char) : List Char :=
  "set $server \"".data ++ h ++ "\";".data

/-- The NPM variable-assignment idiom `set $port <port>;`. -/
def portSetL (p : List Char) : List Char :=
  "set $port ".data ++ p ++ [';']

/-- The bare upstream idiom `server <host>:<port>;`. -/
def upstreamL (h p : List Char) : List Char :=
  "server ".data ++ h ++ [':'] ++ p ++ [';']

/-- Fillers interleaved with an idiom: `f₀ ++ idiom ++ f₁ ++ idiom ++ … ++ last`. -/
def chainL (idiom : List Char) : List (List Char) → List Char → List Char
  | [], last => last
  | f :: fs, last => f ++ (idiom ++ chainL idiom fs last)

/-- The matcher never fires at a position strictly inside `a` (with `rest`
as the continuation). -/
abbrev noFireWithin (tryM : List Char → Option (List Char × List Char))
    (a rest : List Char) : Prop :=
  ∀ i, i < a.length → tryM (List.drop i a ++ rest) = none

/-- All fillers of an interleaving (and the tail) are free of matcher
positions, so the only matches in `chainL idiom fills last` are the
interleaved idiom occurrences themselves. -/
def chainOk (tryM : List Char → Option (List Char × List Char))
    (idiom : List Char) : List (List Char) → List Char → Prop
  | [], last => noFireWithin tryM last []
  | f :: fs, last =>
    noFireWithin tryM f (idiom ++ chainL idiom fs last) ∧ chainOk tryM idiom fs last

/-! ## Concrete fixtures -/

/-- A service configuration with both an explicit `if_success` target and
a fallback whose scheme is omitted. -/
def cfgFix : ServiceConfig :=
  { domain := "sso.example.com"
    check := "http://10.0.0.5:8080/health"
    interval := "30s"
    error_delay := "5s"
    retries := some 3
    if_success := some ⟨"10.0.0.9", 9090, some "https"⟩
    if_failed := ⟨"10.0.0.2", 8000, none⟩ }

/-- The proxy record for `cfgFix`'s domain. -/
def phFix : ProxyHost :=
  ⟨7, "[\"sso.example.com\"]", "10.0.0.5", 8080, "http", true⟩

/-- A config file in NPM format for record id 7, using its stored target. -/
def confFileFix : String :=
  "location / \x7b\n  set $server \"10.0.0.5\";\n  set $port 8080;\n\x7d\n"

/-- A state as created at startup: original target captured from
`phFix`, applied target still `null`. -/
def stInitFix : ServiceState :=
  { config := cfgFix
    originalConfig := some ⟨"10.0.0.5", 8080, some "http"⟩
    isHealthy := false
    lastCheck := none
    consecutiveFailures := 0
    currentHost := none
    currentPort := none
    currentScheme := none }

/-- A state whose applied target is the fallback host/port with scheme
`http` (as after a completed failover with scheme reuse). -/
def stAppliedFix : ServiceState :=
  { stInitFix with
    currentHost := some "10.0.0.2"
    currentPort := some 8000
    currentScheme := some "http" }

/-- A cycle environment in which every external step succeeds and the
probe resolves 200. -/
def envOkFix : CycleEnv :=
  { confDir := "/data/nginx/proxy_host"
    fs := [(configPathOf "/data/nginx/proxy_host" 7, confFileFix)]
    now := 1700000000000
    attempts := fun _ => AttemptOutcome.resolved 200 5
    findOutcome := Except.ok (some phFix)
    dbRunOutcome := Except.ok 1
    reloadOk := true }

/-- Like `envOkFix` but the probe always fails with a refused connection. -/
def envFailFix : CycleEnv :=
  { envOkFix with attempts := fun _ => AttemptOutcome.threw "Connection refused" 3 }

/-- Like `envOkFix` but the reload command exits non-zero. -/
def envReloadFailFix : CycleEnv :=
  { envOkFix with reloadOk := false }

/-- Like `envOkFix` but the config directory is empty: the config file
for record id 7 does not exist. -/
def envNoFileFix : CycleEnv :=
  { envOkFix with fs := [] }

/-- Whether an attempt outcome is the 2xx success of `checkHealth`. -/
def attemptSucceeds : AttemptOutcome → Bool
  | AttemptOutcome.resolved status _ => decide (200 ≤ status ∧ status < 300)
  | AttemptOutcome.threw _ _ => false

/-- Response time carried by an attempt outcome. -/
def attemptRt : AttemptOutcome → Nat
  | AttemptOutcome.resolved _ rt => rt
  | AttemptOutcome.threw _ rt => rt

/-- Variant of `stInitFix` for a domain with no proxy record found at startup. -/
def stNoOrigFix : ServiceState :=
  { stInitFix with originalConfig := none }

/-- A state whose applied target equals the original target field by
field (scheme included). -/
def stMatchedFix : ServiceState :=
  { stInitFix with
    currentHost := some "10.0.0.5"
    currentPort := some 8080
    currentScheme := some "http" }

/-! # Theorems -/

/-! ## Helper lemmas -/

theorem checkHealthLoop_attempts_bounds (outcomes : Nat → AttemptOutcome)
    (maxRetries : Nat) (hm : 1 ≤ maxRetries) :
    ∀ k attempt le d, 1 ≤ attempt → attempt + k = maxRetries + 1 →
      1 ≤ (checkHealthLoop outcomes maxRetries k attempt le d).1.attempts ∧
      (checkHealthLoop outcomes maxRetries k attempt le d).1.attempts ≤ maxRetries := by
  intro k
  induction k with
  | zero =>
    intro attempt le d h1 h2
    simp only [checkHealthLoop]
    omega
  | succ k ih =>
    intro attempt le d h1 h2
    simp only [checkHealthLoop]
    cases houtcome : outcomes attempt with
    | resolved status rt =>
      by_cases hs : 200 ≤ status ∧ status < 300
      · simp only [if_pos hs]
        omega
      · simp only [if_neg hs]
        by_cases hl : attempt < maxRetries
        · simp only [if_pos hl]
          exact ih (attempt + 1) _ _ (by omega) (by omega)
        · simp only [if_neg hl]
          exact ih (attempt + 1) _ _ (by omega) (by omega)
    | threw msg rt =>
      by_cases hl : attempt < maxRetries
      · simp only [if_pos hl]
        exact ih (attempt + 1) _ _ (by omega) (by omega)
      · simp only [if_neg hl]
        omega

/-! ## C6 -/

/-- C6 counterexample: with a configured retry count of 11 and every
attempt failing, `checkHealth` makes 11 attempts — outside the range
`[1, clamp(11, 1, 10)] = [1, 10]` the claim asserts, since
`maxRetries = Math.max(1, retries)` has no upper clamp at 10. -/
theorem checkHealth_attempts_exceed_spec_clamp :
    (checkHealth (fun _ => AttemptOutcome.threw "Connection refused" 3) 11).1.attempts = 11 ∧
    ¬((checkHealth (fun _ => AttemptOutcome.threw "Connection refused" 3) 11).1.attempts ≤ 10) := by
  decide

/-- C6 amended: `checkHealth` only clamps the attempt count from below —
`maxRetries = Math.max(1, retries)` — and defaults to 3 attempts when the
caller does not pass a retry count; for every retry sequence the reported
`attempts` lies within `[1, max(1, configuredRetries)]` (with no upper
bound of 10). -/
theorem checkHealth_attempts_bounds :
    (∀ (outcomes : Nat → AttemptOutcome) (retries : Nat),
      1 ≤ (checkHealth outcomes retries).1.attempts ∧
      (checkHealth outcomes retries).1.attempts ≤ max 1 retries) ∧
    (∀ outcomes : Nat → AttemptOutcome, checkHealth outcomes = checkHealth outcomes 3) := by
  constructor
  · intro outcomes retries
    exact checkHealthLoop_attempts_bounds outcomes (max 1 retries) (le_max_left 1 retries)
      (max 1 retries) 1 none 0 le_rfl (by omega)
  · intro outcomes
    rfl

/-! ## C7 -/

theorem checkHealthLoop_first_success (outcomes : Nat → AttemptOutcome)
    (maxRetries ksucc : Nat) (hk : ksucc ≤ maxRetries)
    (hsucc : attemptSucceeds (outcomes ksucc) = true) :
    ∀ k attempt le d, attempt + k = maxRetries + 1 → attempt ≤ ksucc →
      (∀ j, attempt ≤ j → j < ksucc → attemptSucceeds (outcomes j) = false) →
      checkHealthLoop outcomes maxRetries k attempt le d =
        (⟨true, attemptRt (outcomes ksucc), none, ksucc⟩, d + 1000 * (ksucc - attempt)) := by
  intro k
  induction k with
  | zero =>
    intro attempt le d h1 h2 _
    omega
  | succ k ih =>
    intro attempt le d h1 h2 hfail
    by_cases hak : attempt = ksucc
    · subst hak
      cases houtcome : outcomes attempt with
      | resolved status rt =>
        have hs : 200 ≤ status ∧ status < 300 := by
          rw [houtcome] at hsucc
          simpa [attemptSucceeds] using hsucc
        simp [checkHealthLoop, houtcome, hs, attemptRt]
      | threw msg rt =>
        rw [houtcome] at hsucc
        simp [attemptSucceeds] at hsucc
    · have hlt : attempt < ksucc := lt_of_le_of_ne h2 hak
      have hmax : attempt < maxRetries := lt_of_lt_of_le hlt hk
      have harith : d + 1000 + 1000 * (ksucc - (attempt + 1)) =
          d + 1000 * (ksucc - attempt) := by omega
      cases houtcome : outcomes attempt with
      | resolved status rt =>
        have hs : ¬(200 ≤ status ∧ status < 300) := by
          have hf := hfail attempt le_rfl hlt
          rw [houtcome] at hf
          simpa [attemptSucceeds] using hf
        have hrec := ih (attempt + 1) (some ("HTTP " ++ toString status)) (d + 1000)
          (by omega) (by omega) (fun j hj1 hj2 => hfail j (by omega) hj2)
        simp only [checkHealthLoop, houtcome]
        rw [if_neg hs, if_pos hmax, hrec, harith]
      | threw msg rt =>
        have hrec := ih (attempt + 1) (some msg) (d + 1000)
          (by omega) (by omega) (fun j hj1 hj2 => hfail j (by omega) hj2)
        simp only [checkHealthLoop, houtcome]
        rw [if_pos hmax, hrec, harith]

/-- C7: (a) when the first `k - 1` attempts fail and attempt `k` (within
the allowed `max(1, retries)` attempts) resolves 2xx, `checkHealth`
returns immediately with `success = true`, `attempts = k`, `error = null`
and exactly `1000·(k-1)` ms of retry delay — one fixed 1-second sleep for
each failed attempt that still had attempts remaining; (b) the result
never depends on outcomes after the successful attempt `k` (attempt
`k + 1` is never started); (c) with a configured retry count of 1, a
single failed attempt returns immediately — `success = false`,
`attempts = 1` — with no retry delay. -/
theorem checkHealth_success_short_circuits :
    (∀ (outcomes : Nat → AttemptOutcome) (retries k : Nat),
      1 ≤ k → k ≤ max 1 retries →
      (∀ j, j < k → 1 ≤ j → attemptSucceeds (outcomes j) = false) →
      attemptSucceeds (outcomes k) = true →
      checkHealth outcomes retries =
        (⟨true, attemptRt (outcomes k), none, k⟩, 1000 * (k - 1))) ∧
    (∀ (outcomes outcomesB : Nat → AttemptOutcome) (retries k : Nat),
      1 ≤ k → k ≤ max 1 retries →
      (∀ j, j < k → 1 ≤ j → attemptSucceeds (outcomes j) = false) →
      attemptSucceeds (outcomes k) = true →
      (∀ j, j ≤ k → outcomes j = outcomesB j) →
      checkHealth outcomesB retries = checkHealth outcomes retries) ∧
    (∀ outcomes : Nat → AttemptOutcome,
      attemptSucceeds (outcomes 1) = false →
      (checkHealth outcomes 1).1.success = false ∧
      (checkHealth outcomes 1).1.attempts = 1 ∧
      (checkHealth outcomes 1).2 = 0) := by
  have main : ∀ (outcomes : Nat → AttemptOutcome) (retries k : Nat),
      1 ≤ k → k ≤ max 1 retries →
      (∀ j, j < k → 1 ≤ j → attemptSucceeds (outcomes j) = false) →
      attemptSucceeds (outcomes k) = true →
      checkHealth outcomes retries =
        (⟨true, attemptRt (outcomes k), none, k⟩, 1000 * (k - 1)) := by
    intro outcomes retries k h1 h2 hfail hsucc
    unfold checkHealth
    rw [checkHealthLoop_first_success outcomes (max 1 retries) k h2 hsucc
      (max 1 retries) 1 none 0 (by omega) h1
      (fun j hj1 hj2 => hfail j hj2 hj1)]
    congr 1
    omega
  refine ⟨main, ?_, ?_⟩
  · intro outcomes outcomesB retries k h1 h2 hfail hsucc hagree
    rw [main outcomes retries k h1 h2 hfail hsucc]
    rw [main outcomesB retries k h1 h2
      (fun j hj1 hj2 => by rw [← hagree j (le_of_lt hj1)]; exact hfail j hj1 hj2)
      (by rw [← hagree k le_rfl]; exact hsucc)]
    rw [hagree k le_rfl]
  · intro outcomes hfail
    cases houtcome : outcomes 1 with
    | resolved status rt =>
      have hs : ¬(200 ≤ status ∧ status < 300) := by
        rw [houtcome] at hfail
        simpa [attemptSucceeds] using hfail
      simp [checkHealth, checkHealthLoop, houtcome, hs]
    | threw msg rt =>
      simp [checkHealth, checkHealthLoop, houtcome]

/-- Witness for `checkHealth_success_short_circuits`: two concrete runs —
a recovery on the second of three attempts (one 1-second delay incurred)
and an immediate single-attempt failure with zero delay. -/
theorem checkHealth_success_short_circuits_witness :
    checkHealth (fun j => if j = 2 then AttemptOutcome.resolved 204 7
      else AttemptOutcome.threw "Connection refused" 3) 3 =
      (⟨true, attemptRt (AttemptOutcome.resolved 204 7), none, 2⟩, 1000 * (2 - 1)) ∧
    ((checkHealth (fun _ => AttemptOutcome.threw "Connection refused" 3) 1).1.success = false ∧
     (checkHealth (fun _ => AttemptOutcome.threw "Connection refused" 3) 1).1.attempts = 1 ∧
     (checkHealth (fun _ => AttemptOutcome.threw "Connection refused" 3) 1).2 = 0) := by
  constructor
  · have h := checkHealth_success_short_circuits.1
      (fun j => if j = 2 then AttemptOutcome.resolved 204 7
        else AttemptOutcome.threw "Connection refused" 3) 3 2
      (by decide) (by decide) (by decide) (by decide)
    simpa using h
  · exact checkHealth_success_short_circuits.2.2
      (fun _ => AttemptOutcome.threw "Connection refused" 3) (by decide)

/-! ## C10 -/

/-- C10: `parseTimeToMs` accepts exactly the strings of one or more
decimal digits immediately followed by a single unit character
`s`/`m`/`h`/`d`, returning the digit value times 1000, 60000, 3600000 or
86400000 ms respectively (soundness and completeness); every other
string — e.g. `2 s`, `2sec`, `2`, the empty string — yields the
`Invalid time format` error; and `scheduleNextCheck` computes its delay
by parsing `interval` (healthy) or `error_delay` (unhealthy), so an
invalid configured delay propagates the error instead of arming a
timer. -/
theorem parseTimeToMs_exact_format :
    (∀ (s : String) (ds : List Char) (u : Char) (m : Nat),
      s.data = ds ++ [u] → ds ≠ [] → ds.all Char.isDigit = true →
      unitMultiplier u = some m →
      parseTimeToMs s = Except.ok (digitsToNat ds * m)) ∧
    (∀ (s : String) (v : Nat), parseTimeToMs s = Except.ok v →
      ∃ ds u m, s.data = ds ++ [u] ∧ ds ≠ [] ∧ ds.all Char.isDigit = true ∧
        unitMultiplier u = some m ∧ v = digitsToNat ds * m) ∧
    (∀ s : String, (∃ v, parseTimeToMs s = Except.ok v) ∨
      parseTimeToMs s = Except.error ("Invalid time format: " ++ s)) ∧
    parseTimeToMs "2s" = Except.ok 2000 ∧
    parseTimeToMs "2 s" = Except.error "Invalid time format: 2 s" ∧
    parseTimeToMs "2sec" = Except.error "Invalid time format: 2sec" ∧
    parseTimeToMs "2" = Except.error "Invalid time format: 2" ∧
    parseTimeToMs "" = Except.error "Invalid time format: " ∧
    (∀ st : ServiceState, st.isHealthy = true →
      scheduleNextCheck st = parseTimeToMs st.config.interval) ∧
    (∀ st : ServiceState, st.isHealthy = false →
      scheduleNextCheck st = parseTimeToMs st.config.error_delay) := by
  refine ⟨?_, ?_, ?_, rfl, rfl, rfl, rfl, rfl, ?_, ?_⟩
  · intro s ds u m hs hne hdig hm
    have h1 : s.data.reverse = u :: ds.reverse := by
      rw [hs]
      simp
    simp [parseTimeToMs, h1, hm, hne, hdig]
  · intro s v h
    cases hrev : s.data.reverse with
    | nil =>
      simp [parseTimeToMs, hrev] at h
    | cons u rd =>
      have hsdata : s.data = rd.reverse ++ [u] := by
        have := congrArg List.reverse hrev
        simpa using this
      cases hm : unitMultiplier u with
      | none => simp [parseTimeToMs, hrev, hm] at h
      | some m =>
        by_cases hc1 : rd = []
        · simp [parseTimeToMs, hrev, hm, hc1] at h
        · by_cases hc2 : ∀ x ∈ rd, x.isDigit = true
          · refine ⟨rd.reverse, u, m, hsdata, by simpa using hc1, by simpa using hc2, hm, ?_⟩
            simp [parseTimeToMs, hrev, hm, hc1] at h
            rw [if_pos hc2] at h
            simp at h
            exact h.symm
          · simp [parseTimeToMs, hrev, hm, hc2] at h
  · intro s
    cases hrev : s.data.reverse with
    | nil =>
      right
      simp [parseTimeToMs, hrev]
    | cons u rd =>
      cases hm : unitMultiplier u with
      | none =>
        right
        simp [parseTimeToMs, hrev, hm]
      | some m =>
        by_cases hc1 : rd = []
        · right
          simp [parseTimeToMs, hrev, hm, hc1]
        · by_cases hc2 : ∀ x ∈ rd, x.isDigit = true
          · left
            refine ⟨digitsToNat rd.reverse * m, ?_⟩
            simp [parseTimeToMs, hrev, hm, hc1]
            exact hc2
          · right
            simp [parseTimeToMs, hrev, hm, hc2]
  · intro st h
    simp [scheduleNextCheck, h]
  · intro st h
    simp [scheduleNextCheck, h]

/-- Witness for `parseTimeToMs_exact_format`: the soundness part applied
at `3m` (digits `3`, unit `m`), and the scheduling parts applied at the
startup fixture (`error_delay = "5s"`, unhealthy) and its healthy
variant (`interval = "30s"`). -/
theorem parseTimeToMs_exact_format_witness :
    parseTimeToMs "3m" = Except.ok (digitsToNat ['3'] * 60000) ∧
    scheduleNextCheck stInitFix = parseTimeToMs "5s" ∧
    scheduleNextCheck { stInitFix with isHealthy := true } = parseTimeToMs "30s" := by
  refine ⟨?_, ?_, ?_⟩
  · exact parseTimeToMs_exact_format.1 "3m" ['3'] 'm' 60000 rfl (by decide) (by decide) rfl
  · exact parseTimeToMs_exact_format.2.2.2.2.2.2.2.2.2 stInitFix rfl
  · exact parseTimeToMs_exact_format.2.2.2.2.2.2.2.2.1 { stInitFix with isHealthy := true } rfl

/-! ## C8 -/

/-- C8 (code bug): `updateProxyHost`'s zero-rows branch is dead code.
The `db.run` completion callback is an arrow function, so `this` inside
it is the `DatabaseManager` instance — which has no `changes` property —
not the sqlite3 statement; `this.changes === 0` is `undefined === 0`,
which is false.  A call that runs without error but affects zero rows
(e.g. a stale id matched by no row) therefore resolves `true` and logs
the success message, never the not-found warning; the documented
behaviour (`updateProxyHostDocumented`, matching the JSDoc, the warn-log
branch, and the claim) would resolve `false`.  Rejection on a query
error is as documented. -/
theorem updateProxyHost_zero_rows_resolves_true :
    (∀ (id : Nat) (h : String) (p : Nat) (sch : Option String),
      updateProxyHost id h p sch (Except.ok 0) = Except.ok true) ∧
    updateProxyHostDocumented (Except.ok 0) = Except.ok false ∧
    (∀ (id : Nat) (h : String) (p : Nat) (sch : Option String) (changes : Nat),
      updateProxyHost id h p sch (Except.ok changes) = Except.ok true) ∧
    (∀ (id : Nat) (h : String) (p : Nat) (sch : Option String) (e : String),
      updateProxyHost id h p sch (Except.error e) = Except.error e) := by
  exact ⟨fun _ _ _ _ => rfl, rfl, fun _ _ _ _ _ => rfl, fun _ _ _ _ _ => rfl⟩

/-! ## C9 -/

/-- C9: starting from an empty snapshot directory, two `createSnapshot`
calls return ids 1 then 2 (each id is the maximum existing snapshot
number plus one); after `deleteSnapshot 1`, `listSnapshots` returns
exactly the snapshot with id 2. -/
theorem snapshot_create_create_delete_list :
    (createSnapshot ([] : Fs SnapshotData)
      [("sso", ⟨"10.0.0.1", 8000, "http", "sso.example.com"⟩)]
      "first snapshot" "2026-01-01T00:00:00Z").1 = 1 ∧
    (createSnapshot (createSnapshot ([] : Fs SnapshotData)
        [("sso", ⟨"10.0.0.1", 8000, "http", "sso.example.com"⟩)]
        "first snapshot" "2026-01-01T00:00:00Z").2
      [("sso", ⟨"10.0.0.2", 8000, "http", "sso.example.com"⟩)]
      "second snapshot" "2026-01-02T00:00:00Z").1 = 2 ∧
    (deleteSnapshot (createSnapshot (createSnapshot ([] : Fs SnapshotData)
          [("sso", ⟨"10.0.0.1", 8000, "http", "sso.example.com"⟩)]
          "first snapshot" "2026-01-01T00:00:00Z").2
        [("sso", ⟨"10.0.0.2", 8000, "http", "sso.example.com"⟩)]
        "second snapshot" "2026-01-02T00:00:00Z").2 1).1 = true ∧
    listSnapshots (deleteSnapshot (createSnapshot (createSnapshot ([] : Fs SnapshotData)
          [("sso", ⟨"10.0.0.1", 8000, "http", "sso.example.com"⟩)]
          "first snapshot" "2026-01-01T00:00:00Z").2
        [("sso", ⟨"10.0.0.2", 8000, "http", "sso.example.com"⟩)]
        "second snapshot" "2026-01-02T00:00:00Z").2 1).2 =
      [⟨2, "2026-01-02T00:00:00Z", "second snapshot", 1⟩] := by
  decide

/-! ## C1 -/

/-- C1 counterexample: with a healthy probe, an original target captured
from the ProxyRecord at startup AND an explicit `if_success` target both
present, `checkAndUpdateService` chooses the original target
(`serviceState.originalConfig || config.if_success` — the original is on
the left of `||`), not the `if_success` target the claim says always
wins: the cycle applies host `10.0.0.5` (original), not `10.0.0.9`
(`if_success`). -/
theorem selectTarget_original_beats_if_success :
    selectTargetConfig stInitFix true = some ⟨"10.0.0.5", 8080, some "http"⟩ ∧
    stInitFix.config.if_success = some ⟨"10.0.0.9", 9090, some "https"⟩ ∧
    selectTargetConfig stInitFix true ≠ stInitFix.config.if_success ∧
    (checkAndUpdateService envOkFix stInitFix).state.currentHost = some "10.0.0.5" ∧
    (checkAndUpdateService envOkFix stInitFix).state.currentHost ≠ some "10.0.0.9" := by
  decide

/-- C1 amended: on a successful probe the desired target is the
*original* target whenever one was captured from the ProxyRecord at
startup; the explicit `if_success` target is used only when no original
target is available (and when neither exists the cycle is skipped). -/
theorem selectTarget_success_prefers_original :
    ∀ st : ServiceState,
      (∀ o, st.originalConfig = some o → selectTargetConfig st true = some o) ∧
      (st.originalConfig = none → selectTargetConfig st true = st.config.if_success) := by
  intro st
  constructor
  · intro o h
    simp [selectTargetConfig, jsOr, h]
  · intro h
    simp [selectTargetConfig, jsOr, h]

/-- Witness for `selectTarget_success_prefers_original`: the startup
fixture (original captured) yields the original; the no-record fixture
yields `if_success`. -/
theorem selectTarget_success_prefers_original_witness :
    selectTargetConfig stInitFix true = some ⟨"10.0.0.5", 8080, some "http"⟩ ∧
    selectTargetConfig stNoOrigFix true = stNoOrigFix.config.if_success := by
  exact ⟨(selectTarget_success_prefers_original stInitFix).1
      ⟨"10.0.0.5", 8080, some "http"⟩ rfl,
    (selectTarget_success_prefers_original stNoOrigFix).2 rfl⟩

/-! ## C2 -/

/-- C2 counterexample: a cycle in which the config-file patch and the
record-store update succeed but the proxy reload fails still changes the
applied target — `serviceState.currentHost/currentPort/currentScheme`
are assigned *before* `reloadNginx()` is called — contradicting the
claim that the applied target changes only when all protocol steps
(reload included) succeed. -/
theorem reload_failure_still_updates_applied_target :
    envReloadFailFix.reloadOk = false ∧
    (updateServiceConfiguration envReloadFailFix stAppliedFix
      ⟨"10.0.0.5", 8080, some "http"⟩).reloadAttempted = true ∧
    (updateServiceConfiguration envReloadFailFix stAppliedFix
      ⟨"10.0.0.5", 8080, some "http"⟩).reloadOk = false ∧
    stAppliedFix.currentHost = some "10.0.0.2" ∧
    (updateServiceConfiguration envReloadFailFix stAppliedFix
      ⟨"10.0.0.5", 8080, some "http"⟩).state.currentHost = some "10.0.0.5" ∧
    (updateServiceConfiguration envReloadFailFix stAppliedFix
      ⟨"10.0.0.5", 8080, some "http"⟩).state.currentHost ≠ stAppliedFix.currentHost := by
  decide

/-- C2 amended: the applied target stored in the state changes exactly
when the config-file patch and the record-store update both complete
successfully; any earlier failure (record lookup, missing config file,
store error) leaves it unchanged, but the subsequent reload outcome does
not matter — the state is updated before the reload is issued, so a
failed reload still leaves the new applied target in place. -/
theorem applied_target_updated_after_patch_and_record :
    ∀ (env : CycleEnv) (st : ServiceState) (t : TargetConfig),
      ((updateServiceConfiguration env st t).dbUpdateOk = false →
        (updateServiceConfiguration env st t).state = st) ∧
      (∀ ph, env.findOutcome = Except.ok (some ph) →
        (updateServiceConfiguration env st t).patchOk = true →
        (updateServiceConfiguration env st t).dbUpdateOk = true →
        (updateServiceConfiguration env st t).state =
          { st with
            currentHost := some t.host
            currentPort := some t.port
            currentScheme := some (t.scheme.getD (st.currentScheme.getD ph.forward_scheme)) } ∧
        (updateServiceConfiguration env st t).reloadAttempted = true ∧
        (updateServiceConfiguration env st t).reloadOk = env.reloadOk) := by
  intro env st t
  cases hfind : env.findOutcome with
  | error e =>
    constructor
    · intro _
      simp [updateServiceConfiguration, hfind, noSyncResult]
    · intro ph hph
      simp at hph
  | ok oph =>
    cases oph with
    | none =>
      constructor
      · intro _
        simp [updateServiceConfiguration, hfind, noSyncResult]
      · intro ph hph
        simp at hph
    | some ph0 =>
      cases hpatch : (updateProxyConfig env.confDir env.fs env.now ph0.id
          (st.currentHost.getD ph0.forward_host) t.host
          (st.currentPort.getD ph0.forward_port) t.port).1 with
      | false =>
        constructor
        · intro _
          simp [updateServiceConfiguration, hfind, hpatch]
        · intro ph hph hok
          have hph2 : ph0 = ph := by simpa using hph
          subst hph2
          simp [updateServiceConfiguration, hfind, hpatch] at hok
      | true =>
        cases hdb : env.dbRunOutcome with
        | error e =>
          constructor
          · intro _
            simp [updateServiceConfiguration, hfind, hpatch, updateProxyHost, hdb]
          · intro ph hph _ hok
            have hph2 : ph0 = ph := by simpa using hph
            subst hph2
            simp [updateServiceConfiguration, hfind, hpatch, updateProxyHost, hdb] at hok
        | ok changes =>
          constructor
          · intro hok
            simp [updateServiceConfiguration, hfind, hpatch, updateProxyHost,
              databaseManagerChanges, hdb] at hok
          · intro ph hph _ _
            have hph2 : ph0 = ph := by simpa using hph
            subst hph2
            simp [updateServiceConfiguration, hfind, hpatch, updateProxyHost,
              databaseManagerChanges, hdb]

/-- Witness for `applied_target_updated_after_patch_and_record`: the
missing-config-file fixture leaves the state unchanged, and the
failed-reload fixture still sets the applied target and reports the
reload failure. -/
theorem applied_target_updated_after_patch_and_record_witness :
    (updateServiceConfiguration envNoFileFix stInitFix
      ⟨"10.0.0.2", 8000, none⟩).state = stInitFix ∧
    ((updateServiceConfiguration envReloadFailFix stAppliedFix
        ⟨"10.0.0.5", 8080, some "http"⟩).state =
      { stAppliedFix with
        currentHost := some "10.0.0.5"
        currentPort := some 8080
        currentScheme := some ((some "http" : Option String).getD
          (stAppliedFix.currentScheme.getD phFix.forward_scheme)) } ∧
      (updateServiceConfiguration envReloadFailFix stAppliedFix
        ⟨"10.0.0.5", 8080, some "http"⟩).reloadAttempted = true ∧
      (updateServiceConfiguration envReloadFailFix stAppliedFix
        ⟨"10.0.0.5", 8080, some "http"⟩).reloadOk = envReloadFailFix.reloadOk) := by
  constructor
  · exact (applied_target_updated_after_patch_and_record envNoFileFix stInitFix
      ⟨"10.0.0.2", 8000, none⟩).1 (by decide)
  · exact (applied_target_updated_after_patch_and_record envReloadFailFix stAppliedFix
      ⟨"10.0.0.5", 8080, some "http"⟩).2 phFix rfl (by decide) (by decide)

/-! ## C3 -/

/-- C3 counterexample: a cycle whose desired target equals the applied
target on host and port and omits the scheme — so that the resolved
scheme (`targetConfig.scheme || oldScheme`) reuses the applied `http`,
leaving the effective target identical to the applied one — still
performs the config-file write, the record-store write and the reload:
`needsConfigurationUpdate` compares with JS `!==`, and
`currentScheme !== targetConfig.scheme` is `'http' !== undefined`, i.e.
true. -/
theorem omitted_scheme_still_triggers_writes :
    stAppliedFix.currentHost = some cfgFix.if_failed.host ∧
    stAppliedFix.currentPort = some cfgFix.if_failed.port ∧
    cfgFix.if_failed.scheme = none ∧
    stAppliedFix.currentScheme = some "http" ∧
    needsConfigurationUpdate stAppliedFix cfgFix.if_failed = true ∧
    (checkAndUpdateService envFailFix stAppliedFix).patchAttempted = true ∧
    (checkAndUpdateService envFailFix stAppliedFix).dbUpdateAttempted = true ∧
    (checkAndUpdateService envFailFix stAppliedFix).reloadAttempted = true ∧
    (checkAndUpdateService envFailFix stAppliedFix).fs ≠ envFailFix.fs ∧
    (checkAndUpdateService envFailFix stAppliedFix).state.currentScheme = some "http" := by
  decide

/-- C3 amended: the orchestrator performs no config-file write, no
record-store write and no reload exactly in the cycles whose selected
target matches the applied target field by field under JS strict
equality — host and port equal and the scheme *present on both sides*
and equal.  (When the desired target omits its scheme, `'…' !==
undefined` makes `needsConfigurationUpdate` true and a full update runs
even though the resolved scheme would be unchanged.) -/
theorem strict_target_match_skips_update :
    ∀ (env : CycleEnv) (st : ServiceState) (t : TargetConfig) (s : String),
      selectTargetConfig (postProbeState env st) (healthResultOf env st).success = some t →
      (postProbeState env st).currentHost = some t.host →
      (postProbeState env st).currentPort = some t.port →
      t.scheme = some s →
      (postProbeState env st).currentScheme = some s →
      checkAndUpdateService env st = noSyncResult env (postProbeState env st) ∧
      (checkAndUpdateService env st).fs = env.fs ∧
      (checkAndUpdateService env st).dbUpdateAttempted = false ∧
      (checkAndUpdateService env st).reloadAttempted = false ∧
      (checkAndUpdateService env st).state.currentHost = st.currentHost ∧
      (checkAndUpdateService env st).state.currentPort = st.currentPort ∧
      (checkAndUpdateService env st).state.currentScheme = st.currentScheme := by
  intro env st t s hsel h2 h3 h4 h5
  have hneed : needsConfigurationUpdate (postProbeState env st) t = false := by
    simp [needsConfigurationUpdate, jsStrictNeq, h2, h3, h4, h5]
  have hmain : checkAndUpdateService env st = noSyncResult env (postProbeState env st) := by
    simp [checkAndUpdateService, hsel, hneed]
  refine ⟨hmain, ?_, ?_, ?_, ?_, ?_, ?_⟩ <;>
    rw [hmain] <;> simp [noSyncResult, postProbeState]

/-- Witness for `strict_target_match_skips_update`: a healthy cycle whose
applied target already equals the original target (scheme included)
touches nothing. -/
theorem strict_target_match_skips_update_witness :
    checkAndUpdateService envOkFix stMatchedFix =
      noSyncResult envOkFix (postProbeState envOkFix stMatchedFix) ∧
    (checkAndUpdateService envOkFix stMatchedFix).fs = envOkFix.fs ∧
    (checkAndUpdateService envOkFix stMatchedFix).dbUpdateAttempted = false := by
  have h := strict_target_match_skips_update envOkFix stMatchedFix
    ⟨"10.0.0.5", 8080, some "http"⟩ "http" (by decide) (by decide) (by decide) rfl (by decide)
  exact ⟨h.1, h.2.1, h.2.2.1⟩

/-! ## C4 -/

/-- C4: when the config file for the proxy record's id does not exist,
`updateProxyConfig` returns `false` and leaves the file system untouched,
and `updateServiceConfiguration` then stops after the failed patch: no
record-store update is attempted, no reload is issued, and the state —
applied target included — is exactly the input state. -/
theorem missing_config_file_aborts_cycle :
    ∀ (env : CycleEnv) (st : ServiceState) (t : TargetConfig) (ph : ProxyHost),
      env.findOutcome = Except.ok (some ph) →
      fsLookup env.fs (configPathOf env.confDir ph.id) = none →
      (∀ oldH newH oldP newP,
        (updateProxyConfig env.confDir env.fs env.now ph.id oldH newH oldP newP).1 = false ∧
        (updateProxyConfig env.confDir env.fs env.now ph.id oldH newH oldP newP).2 = env.fs) ∧
      updateServiceConfiguration env st t =
        ⟨st, env.fs, true, false, false, false, false, false⟩ := by
  intro env st t ph hfind hmiss
  have hupd : ∀ oldH newH oldP newP,
      updateProxyConfig env.confDir env.fs env.now ph.id oldH newH oldP newP =
        (false, env.fs) := by
    intro oldH newH oldP newP
    simp [updateProxyConfig, hmiss]
  constructor
  · intro oldH newH oldP newP
    rw [hupd]
    exact ⟨rfl, rfl⟩
  · simp [updateServiceConfiguration, hfind, hupd]

/-- Witness for `missing_config_file_aborts_cycle`: the empty-directory
fixture. -/
theorem missing_config_file_aborts_cycle_witness :
    (updateProxyConfig envNoFileFix.confDir envNoFileFix.fs envNoFileFix.now phFix.id
      "10.0.0.5" "10.0.0.2" 8080 8000).1 = false ∧
    updateServiceConfiguration envNoFileFix stInitFix ⟨"10.0.0.2", 8000, none⟩ =
      ⟨stInitFix, envNoFileFix.fs, true, false, false, false, false, false⟩ := by
  have h := missing_config_file_aborts_cycle envNoFileFix stInitFix
    ⟨"10.0.0.2", 8000, none⟩ phFix rfl rfl
  exact ⟨(h.1 "10.0.0.5" "10.0.0.2" 8080 8000).1, h.2⟩

/-! ## C5 -/

theorem litP_self_append : ∀ (xs ys : List Char), litP xs (xs ++ ys) = some ys := by
  intro xs
  induction xs with
  | nil => intro ys; rfl
  | cons x xs ih => intro ys; simp [litP, ih]

theorem tryServerSet_exact (oldH newH : List Char) (rest : List Char) :
    tryServerSet oldH newH (srvSetL oldH ++ rest) = some (srvSetL newH, rest) := by
  have h1 : "set".data = ['s','e','t'] := rfl
  have h2 : "$server".data = ['$','s','e','r','v','e','r'] := rfl
  have h3 : "set $server \"".data = ['s','e','t',' ','$','s','e','r','v','e','r',' ','"'] := rfl
  have h4 : "\";".data = ['"',';'] := rfl
  simp [tryServerSet, srvSetL, litP, wsPlus, wsStar, isJsWs, litP_self_append,
    h1, h2, h3, h4, List.takeWhile_cons, List.dropWhile_cons]

theorem tryPortSet_exact (d : Char) (ds : List Char) (newP : List Char)
    (rest : List Char) (hd : isJsWs d = false) :
    tryPortSet (d :: ds) newP (portSetL (d :: ds) ++ rest) =
      some (portSetL newP, rest) := by
  have h1 : "set".data = ['s','e','t'] := rfl
  have h2 : "$port".data = ['$','p','o','r','t'] := rfl
  have h3 : "set $port ".data = ['s','e','t',' ','$','p','o','r','t',' '] := rfl
  simp only [isJsWs, Bool.or_eq_false_iff, decide_eq_false_iff_not] at hd
  simp [tryPortSet, portSetL, litP, wsPlus, wsStar, isJsWs, litP_self_append,
    h1, h2, h3, hd.1, hd.2, List.takeWhile_cons, List.dropWhile_cons]

theorem tryUpstream_semi_exact (c : Char) (hs oldP newH newP rest : List Char)
    (hc : isJsWs c = false) :
    tryUpstream true (c :: hs) oldP newH newP (upstreamL (c :: hs) oldP ++ rest) =
      some (upstreamL newH newP, rest) := by
  have h1 : "server".data = ['s','e','r','v','e','r'] := rfl
  have h2 : "server ".data = ['s','e','r','v','e','r',' '] := rfl
  simp only [isJsWs, Bool.or_eq_false_iff, decide_eq_false_iff_not] at hc
  simp [tryUpstream, upstreamL, litP, wsPlus, wsStar, isJsWs, litP_self_append,
    h1, h2, hc.1, hc.2, List.takeWhile_cons, List.dropWhile_cons]

theorem replaceScanF_nil (tryM : List Char → Option (List Char × List Char))
    (fuel : Nat) : replaceScanF tryM fuel [] = [] := by
  cases fuel <;> rfl

theorem replaceScanF_eq_replaceScan (tryM : List Char → Option (List Char × List Char)) :
    ∀ (n : Nat) (l : List Char) (fuel : Nat), l.length ≤ n → l.length ≤ fuel →
      replaceScanF tryM fuel l = replaceScan tryM l := by
  intro n
  induction n with
  | zero =>
    intro l fuel hn _
    have : l = [] := List.length_eq_zero.mp (Nat.le_zero.mp hn)
    subst this
    rw [replaceScanF_nil, replaceScan, replaceScanF_nil]
  | succ n ih =>
    intro l fuel hn hfuel
    cases l with
    | nil => rw [replaceScanF_nil, replaceScan, replaceScanF_nil]
    | cons c cs =>
      simp only [List.length_cons] at hn hfuel
      cases fuel with
      | zero => simp at hfuel
      | succ f =>
        rw [replaceScan]
        simp only [List.length_cons, replaceScanF]
        cases htry : tryM (c :: cs) with
        | none =>
          have e1 : replaceScanF tryM f cs = replaceScan tryM cs :=
            ih cs f (by simpa using hn) (by simpa using hfuel)
          have e2 : replaceScanF tryM cs.length cs = replaceScan tryM cs :=
            ih cs cs.length (by simpa using hn) le_rfl
          rw [e1, e2]
        | some p =>
          obtain ⟨out, rest⟩ := p
          by_cases hlen : rest.length < cs.length + 1
          · simp only [List.length_cons, if_pos hlen]
            have e1 : replaceScanF tryM f rest = replaceScan tryM rest :=
              ih rest f (by omega) (by omega)
            have e2 : replaceScanF tryM cs.length rest = replaceScan tryM rest :=
              ih rest cs.length (by omega) (by omega)
            rw [e1, e2]
          · simp only [List.length_cons, if_neg hlen]
            have e1 : replaceScanF tryM f cs = replaceScan tryM cs :=
              ih cs f (by simpa using hn) (by simpa using hfuel)
            have e2 : replaceScanF tryM cs.length cs = replaceScan tryM cs :=
              ih cs cs.length (by simpa using hn) le_rfl
            rw [e1, e2]

theorem replaceScan_cons_none (tryM : List Char → Option (List Char × List Char))
    (c : Char) (cs : List Char) (h : tryM (c :: cs) = none) :
    replaceScan tryM (c :: cs) = c :: replaceScan tryM cs := by
  rw [replaceScan]
  simp only [List.length_cons, replaceScanF, h]
  rw [replaceScanF_eq_replaceScan tryM cs.length cs cs.length le_rfl le_rfl]

theorem replaceScan_match (tryM : List Char → Option (List Char × List Char))
    (m out rest : List Char) (hm : m ≠ [])
    (h : tryM (m ++ rest) = some (out, rest)) :
    replaceScan tryM (m ++ rest) = out ++ replaceScan tryM rest := by
  cases m with
  | nil => exact absurd rfl hm
  | cons c m' =>
    rw [replaceScan]
    rw [show (c :: m') ++ rest = c :: (m' ++ rest) from rfl] at h
    have hlen : rest.length < (m' ++ rest).length + 1 := by
      simp [List.length_append]
      omega
    simp only [List.cons_append, List.length_cons, replaceScanF, List.append_eq, h,
      if_pos hlen]
    rw [replaceScanF_eq_replaceScan tryM rest.length rest (m' ++ rest).length le_rfl
      (by simp [List.length_append])]

theorem replaceScan_nil (tryM : List Char → Option (List Char × List Char)) :
    replaceScan tryM [] = [] := rfl

theorem replaceScan_append_noFire (tryM : List Char → Option (List Char × List Char)) :
    ∀ (a rest : List Char), noFireWithin tryM a rest →
      replaceScan tryM (a ++ rest) = a ++ replaceScan tryM rest := by
  intro a
  induction a with
  | nil => intro rest _; simp
  | cons c a' ih =>
    intro rest hnf
    have h0 : tryM (c :: (a' ++ rest)) = none := by
      have := hnf 0 (by simp)
      simpa using this
    rw [show (c :: a') ++ rest = c :: (a' ++ rest) from rfl]
    rw [replaceScan_cons_none tryM c (a' ++ rest) h0]
    rw [ih rest (fun i hi => by
      have := hnf (i + 1) (by simpa using Nat.succ_lt_succ hi)
      simpa using this)]
    rfl

theorem replaceScan_chain (tryM : List Char → Option (List Char × List Char))
    (oldI newI : List Char) (hne : oldI ≠ [])
    (hexact : ∀ rest, tryM (oldI ++ rest) = some (newI, rest)) :
    ∀ (fills : List (List Char)) (last : List Char),
      chainOk tryM oldI fills last →
      replaceScan tryM (chainL oldI fills last) = chainL newI fills last := by
  intro fills
  induction fills with
  | nil =>
    intro last hok
    have h := replaceScan_append_noFire tryM last [] hok
    simpa [chainL, replaceScan_nil] using h
  | cons f fs ih =>
    intro last hok
    obtain ⟨hnf, hok'⟩ := hok
    show replaceScan tryM (f ++ (oldI ++ chainL oldI fs last)) =
      f ++ (newI ++ chainL newI fs last)
    rw [replaceScan_append_noFire tryM f (oldI ++ chainL oldI fs last) hnf]
    rw [replaceScan_match tryM oldI newI (chainL oldI fs last) hne
      (hexact (chainL oldI fs last))]
    rw [ih last hok']

theorem srvSetL_ne_nil (h : List Char) : srvSetL h ≠ [] := by
  intro hc
  have := congrArg List.length hc
  simp [srvSetL, List.length_append] at this

theorem portSetL_ne_nil (p : List Char) : portSetL p ≠ [] := by
  intro hc
  have := congrArg List.length hc
  simp [portSetL, List.length_append] at this

theorem upstreamL_ne_nil (h p : List Char) : upstreamL h p ≠ [] := by
  intro hc
  have := congrArg List.length hc
  simp [upstreamL, List.length_append] at this

theorem configPathOf_ne_backupPathOf (confDir : String) (pid now : Nat) :
    configPathOf confDir pid ≠ backupPathOf confDir pid now := by
  intro h
  have h8 : (".backup." : String).length = 8 := rfl
  have hlen := congrArg String.length h
  simp [backupPathOf, String.length_append, h8] at hlen
  omega

set_option maxRecDepth 40000 in
/-- C5: (1) for every existing config file, `updateProxyConfig` succeeds,
writes a timestamped backup whose content is byte-for-byte the pre-patch
content, and overwrites the config file with exactly
`replaceUpstreamConfig` of the old content; (2)–(4) each global
replacement pass rewrites *every* occurrence of its recognized idiom —
`set $server "<oldHost>";`, `set $port <oldPort>;`, and
`server <oldHost>:<oldPort>;` — to the new value, for any interleaving
with filler text in which the pattern does not otherwise fire; (5) a
concrete NPM-style config with two occurrences of each idiom
round-trips to the new host/port at all six occurrences.  (The two
recognized idioms contain no scheme text, and `updateProxyConfig` has no
scheme parameters — the scheme arguments its caller passes are ignored —
so scheme occurrences are vacuous.) -/
theorem updateProxyConfig_backup_and_roundtrip :
    (∀ (confDir : String) (fs : Fs String) (now pid : Nat) (oldH newH : String)
        (oldP newP : Nat) (content : String),
      fsLookup fs (configPathOf confDir pid) = some content →
      (updateProxyConfig confDir fs now pid oldH newH oldP newP).1 = true ∧
      fsLookup (updateProxyConfig confDir fs now pid oldH newH oldP newP).2
        (backupPathOf confDir pid now) = some content ∧
      fsLookup (updateProxyConfig confDir fs now pid oldH newH oldP newP).2
        (configPathOf confDir pid) =
        some (replaceUpstreamConfig content oldH newH oldP newP)) ∧
    (∀ (oldH newH : List Char) (fills : List (List Char)) (last : List Char),
      chainOk (tryServerSet oldH newH) (srvSetL oldH) fills last →
      replaceScan (tryServerSet oldH newH) (chainL (srvSetL oldH) fills last) =
        chainL (srvSetL newH) fills last) ∧
    (∀ (d : Char) (ds newP : List Char) (fills : List (List Char)) (last : List Char),
      isJsWs d = false →
      chainOk (tryPortSet (d :: ds) newP) (portSetL (d :: ds)) fills last →
      replaceScan (tryPortSet (d :: ds) newP) (chainL (portSetL (d :: ds)) fills last) =
        chainL (portSetL newP) fills last) ∧
    (∀ (c : Char) (hs oldP newH newP : List Char) (fills : List (List Char))
        (last : List Char),
      isJsWs c = false →
      chainOk (tryUpstream true (c :: hs) oldP newH newP)
        (upstreamL (c :: hs) oldP) fills last →
      replaceScan (tryUpstream true (c :: hs) oldP newH newP)
        (chainL (upstreamL (c :: hs) oldP) fills last) =
        chainL (upstreamL newH newP) fills last) ∧
    replaceUpstreamConfig
      "location / \x7b\n  set $server \"192.168.11.2\";\n  set $port 8010;\n\x7d\nlocation /api \x7b\n  set $server \"192.168.11.2\";\n  set $port 8010;\n\x7d\nupstream fb \x7b\n  server 192.168.11.2:8010;\n  server 192.168.11.2:8010;\n\x7d\n"
      "192.168.11.2" "10.0.0.9" 8010 9001 =
      "location / \x7b\n  set $server \"10.0.0.9\";\n  set $port 9001;\n\x7d\nlocation /api \x7b\n  set $server \"10.0.0.9\";\n  set $port 9001;\n\x7d\nupstream fb \x7b\n  server 10.0.0.9:9001;\n  server 10.0.0.9:9001;\n\x7d\n" := by
  refine ⟨?_, ?_, ?_, ?_, ?_⟩
  · intro confDir fs now pid oldH newH oldP newP content hlook
    have hne := configPathOf_ne_backupPathOf confDir pid now
    refine ⟨?_, ?_, ?_⟩
    · simp [updateProxyConfig, hlook]
    · simp [updateProxyConfig, hlook, fsWrite, fsLookup, hne]
    · simp [updateProxyConfig, hlook, fsWrite, fsLookup]
  · intro oldH newH fills last hok
    exact replaceScan_chain _ _ _ (srvSetL_ne_nil oldH)
      (tryServerSet_exact oldH newH) fills last hok
  · intro d ds newP fills last hd hok
    exact replaceScan_chain _ _ _ (portSetL_ne_nil (d :: ds))
      (fun rest => tryPortSet_exact d ds newP rest hd) fills last hok
  · intro c hs oldP newH newP fills last hc hok
    exact replaceScan_chain _ _ _ (upstreamL_ne_nil (c :: hs) oldP)
      (fun rest => tryUpstream_semi_exact c hs oldP newH newP rest hc) fills last hok
  · rfl

/-- Witness for `updateProxyConfig_backup_and_roundtrip`: the fixture
config directory (backup created with the pre-patch bytes, file patched),
and one server-set pass over a filler/idiom interleaving. -/
theorem updateProxyConfig_backup_and_roundtrip_witness :
    (updateProxyConfig "/data/nginx/proxy_host"
      [(configPathOf "/data/nginx/proxy_host" 7, confFileFix)]
      1700000000000 7 "10.0.0.5" "10.0.0.9" 8080 9090).1 = true ∧
    fsLookup (updateProxyConfig "/data/nginx/proxy_host"
      [(configPathOf "/data/nginx/proxy_host" 7, confFileFix)]
      1700000000000 7 "10.0.0.5" "10.0.0.9" 8080 9090).2
      (backupPathOf "/data/nginx/proxy_host" 7 1700000000000) = some confFileFix ∧
    fsLookup (updateProxyConfig "/data/nginx/proxy_host"
      [(configPathOf "/data/nginx/proxy_host" 7, confFileFix)]
      1700000000000 7 "10.0.0.5" "10.0.0.9" 8080 9090).2
      (configPathOf "/data/nginx/proxy_host" 7) =
      some (replaceUpstreamConfig confFileFix "10.0.0.5" "10.0.0.9" 8080 9090) ∧
    replaceScan (tryServerSet "10.0.0.5".data "10.0.0.9".data)
      (chainL (srvSetL "10.0.0.5".data) ["location / \x7b\n  ".data] "\n\x7d\n".data) =
      chainL (srvSetL "10.0.0.9".data) ["location / \x7b\n  ".data] "\n\x7d\n".data := by
  have h1 := updateProxyConfig_backup_and_roundtrip.1 "/data/nginx/proxy_host"
    [(configPathOf "/data/nginx/proxy_host" 7, confFileFix)]
    1700000000000 7 "10.0.0.5" "10.0.0.9" 8080 9090 confFileFix rfl
  refine ⟨h1.1, h1.2.1, h1.2.2, ?_⟩
  exact updateProxyConfig_backup_and_roundtrip.2.1 "10.0.0.5".data "10.0.0.9".data
    ["location / \x7b\n  ".data] "\n\x7d\n".data
    ⟨by decide,
     show noFireWithin (tryServerSet "10.0.0.5".data "10.0.0.9".data) "\n\x7d\n".data []
       from by decide⟩
